import Mathlib

/-!
Verification development for the MLOps-Project-Generator repository.

The repository's core is a choice validator plus a project renderer, exposed
through an interactive CLI flow (generator/cli.py) and a pair of HTTP handlers
(web_ui/api/options.py, web_ui/api/generate.py).  This file embeds the data
model and the operations shallowly: HTTP handlers become pure functions from
abstracted request outcomes to responses and event traces, the validator and
renderer become pure Lean functions, and filesystem trees become an inductive
type.  Definitions are transcribed from the Python source; where the source of
a component (generator/validators.py, generator/renderer.py) is not available
and only its callers are, the definition is modelled from the specification
and marked as such in its doc comment.
-/

namespace MLOpsGen

/-!  ## Data model: ChoiceSet and option domains

A ChoiceSet is a mapping from option name to selected value string.  The seven
option names are fixed; a field holds `none` when the key is absent from the
mapping (spec section 3).  Domains are transcribed from web_ui/api/options.py,
whose value strings coincide with the spec section 6 table.
-/

structure ChoiceSet where
  project_name : Option String
  framework : Option String
  task_type : Option String
  experiment_tracking : Option String
  orchestration : Option String
  deployment : Option String
  monitoring : Option String
deriving DecidableEq, Repr

def frameworkDomain : List String := ["sklearn", "pytorch", "tensorflow"]

def taskTypeDomain : List String := ["classification", "regression", "timeseries"]

def trackingDomain : List String := ["mlflow", "wandb", "none"]

def orchestrationDomain : List String := ["airflow", "kubeflow", "none"]

def deploymentDomain : List String := ["fastapi", "docker", "kubernetes"]

def monitoringDomain : List String := ["evidently", "custom", "none"]

/-- A character acceptable in a directory name (spec: `project_name` must be
"filesystem-safe"): alphanumeric, dash or underscore. -/
def fsSafeChar (c : Char) : Bool := c.isAlphanum || c = '-' || c = '_'

def fsSafe (s : String) : Bool := s.toList.all fsSafeChar

def missingMsg (f : String) : String := "Missing required field: " ++ f

def invalidMsg (f : String) : String := "Invalid value for field: " ++ f

/-- Check one enum-valued option: a required key must be present, and a present
value must belong to the declared domain. -/
def checkEnum (f : String) (v : Option String) (dom : List String)
    (required : Bool) : Except String Unit :=
  match v with
  | none => if required then .error (missingMsg f) else .ok ()
  | some x => if dom.contains x then .ok () else .error (invalidMsg f)

/-- Check `project_name`: required, non-empty, filesystem-safe. -/
def checkProjectName (v : Option String) : Except String Unit :=
  match v with
  | none => .error (missingMsg "project_name")
  | some x =>
    if x.isEmpty then .error (invalidMsg "project_name")
    else if fsSafe x then .ok () else .error (invalidMsg "project_name")

/-- Modelled from the spec: `validate_choices` lives in generator/validators.py,
which is not among the available source files (only its callers in
generator/cli.py and web_ui/api/generate.py are).  Spec section 4.1: validation
fails, naming the offending field, when a required key is missing, a key's
value is not in its declared domain, or `project_name` is empty or contains
unsafe characters; checks run in sequence and the first violation is
reported. -/
def validate_choices (c : ChoiceSet) : Except String Unit :=
  match checkProjectName c.project_name with
  | .error m => .error m
  | .ok _ =>
  match checkEnum "framework" c.framework frameworkDomain true with
  | .error m => .error m
  | .ok _ =>
  match checkEnum "task_type" c.task_type taskTypeDomain true with
  | .error m => .error m
  | .ok _ =>
  match checkEnum "experiment_tracking" c.experiment_tracking trackingDomain true with
  | .error m => .error m
  | .ok _ =>
  match checkEnum "orchestration" c.orchestration orchestrationDomain false with
  | .error m => .error m
  | .ok _ =>
  match checkEnum "deployment" c.deployment deploymentDomain true with
  | .error m => .error m
  | .ok _ => checkEnum "monitoring" c.monitoring monitoringDomain false

/-- The spec's characterisation of a valid ChoiceSet (sections 3 and 8): every
required key present, every enum value inside its domain, `project_name`
non-empty and filesystem-safe. -/
def validSpec (c : ChoiceSet) : Bool :=
  (match c.project_name with
   | none => false
   | some x => !x.isEmpty && fsSafe x) &&
  (match c.framework with
   | none => false
   | some x => frameworkDomain.contains x) &&
  (match c.task_type with
   | none => false
   | some x => taskTypeDomain.contains x) &&
  (match c.experiment_tracking with
   | none => false
   | some x => trackingDomain.contains x) &&
  (match c.orchestration with
   | none => true
   | some x => orchestrationDomain.contains x) &&
  (match c.deployment with
   | none => false
   | some x => deploymentDomain.contains x) &&
  (match c.monitoring with
   | none => true
   | some x => monitoringDomain.contains x)

/-- The names of the fields of `c` that violate the spec's constraints:
a missing required field, an out-of-domain enum value, or a bad
`project_name`. -/
def offenders (c : ChoiceSet) : List String :=
  (match c.project_name with
   | none => ["project_name"]
   | some x => if x.isEmpty || !fsSafe x then ["project_name"] else []) ++
  (match c.framework with
   | none => ["framework"]
   | some x => if frameworkDomain.contains x then [] else ["framework"]) ++
  (match c.task_type with
   | none => ["task_type"]
   | some x => if taskTypeDomain.contains x then [] else ["task_type"]) ++
  (match c.experiment_tracking with
   | none => ["experiment_tracking"]
   | some x => if trackingDomain.contains x then [] else ["experiment_tracking"]) ++
  (match c.orchestration with
   | none => []
   | some x => if orchestrationDomain.contains x then [] else ["orchestration"]) ++
  (match c.deployment with
   | none => ["deployment"]
   | some x => if deploymentDomain.contains x then [] else ["deployment"]) ++
  (match c.monitoring with
   | none => []
   | some x => if monitoringDomain.contains x then [] else ["monitoring"])

/-- The error message `m` names (as a missing-field or invalid-value message)
some field that actually offends in `c`. -/
def errorIdentifiesOffender (c : ChoiceSet) (m : String) : Bool :=
  (offenders c).any (fun f => m == missingMsg f || m == invalidMsg f)

/-!  ## The options HTTP handler (web_ui/api/options.py)

`do_GET` replies 200 with a constant JSON object: one key per option, each
mapped to a list of value/label/description triples.  The table below is
transcribed entry by entry from the source. -/

structure OptionEntry where
  value : String
  label : String
  description : String
deriving DecidableEq, Repr

def optionsTable : List (String × List OptionEntry) :=
  [("framework",
    [⟨"sklearn", "Scikit-learn", "Tabular data, Classic ML"⟩,
     ⟨"pytorch", "PyTorch", "Deep learning, Research"⟩,
     ⟨"tensorflow", "TensorFlow", "Production, Enterprise"⟩]),
   ("task_type",
    [⟨"classification", "Classification", "Predict categories"⟩,
     ⟨"regression", "Regression", "Predict continuous values"⟩,
     ⟨"timeseries", "Time Series", "Time-based predictions"⟩]),
   ("experiment_tracking",
    [⟨"mlflow", "MLflow", "Open-source ML tracking"⟩,
     ⟨"wandb", "W&B", "Cloud-based experiment tracking"⟩,
     ⟨"none", "None", "No experiment tracking"⟩]),
   ("orchestration",
    [⟨"airflow", "Airflow", "Workflow orchestration"⟩,
     ⟨"kubeflow", "Kubeflow", "Kubernetes-native ML pipelines"⟩,
     ⟨"none", "None", "No orchestration"⟩]),
   ("deployment",
    [⟨"fastapi", "FastAPI", "REST API deployment"⟩,
     ⟨"docker", "Docker", "Container deployment"⟩,
     ⟨"kubernetes", "Kubernetes", "Production-scale deployment"⟩]),
   ("monitoring",
    [⟨"evidently", "Evidently", "Automated ML monitoring"⟩,
     ⟨"custom", "Custom", "Custom monitoring solution"⟩,
     ⟨"none", "None", "No monitoring"⟩])]

structure OptionsResponse where
  status : Nat
  body : List (String × List OptionEntry)
deriving DecidableEq, Repr

/-- Embeds web_ui/api/options.py, `handler.do_GET`: sends 200 and the static options
table, for any GET request (the request content, abstracted as a string, is
never consulted). -/
def options_do_GET (_req : String) : OptionsResponse :=
  { status := 200, body := optionsTable }

/-!  ## The generate HTTP handler (web_ui/api/generate.py)

`do_POST` is embedded as a pure function of the abstracted outcomes of its
effectful sub-steps: `parsed` stands for the result of reading and JSON-decoding
the request body (the outer `try` also catches a missing Content-Length or bad
UTF-8, all collapsed into `Except.error`), `render` for the fallible inner
block (mkdtemp, `ProjectRenderer(data).generate_project()` and ZIP creation),
and `taskId` for the generated uuid4.  The function returns the HTTP response
together with the trace of side-effecting events the handler performed, in
program order. -/

inductive Event where
  | promptUser
  | validate
  | mkTempDir
  | mkProjectDir
  | chdir (d : String)
  | renderProject
  | writeZip
  | printBanner
  | printError
  | printSuccess
deriving DecidableEq, Repr

/-- Events that write filesystem state for the project being generated. -/
def isFsWrite : Event → Bool
  | .mkTempDir => true
  | .mkProjectDir => true
  | .renderProject => true
  | .writeZip => true
  | _ => false

structure HttpResponse where
  status : Nat
  body : List (String × String)
deriving DecidableEq, Repr

def successBody (taskId : String) : List (String × String) :=
  [("task_id", taskId),
   ("status", "completed"),
   ("message", "Project generated successfully"),
   ("download_url", "/api/download?task_id=" ++ taskId)]

structure PostRun where
  events : List Event
  response : HttpResponse
deriving DecidableEq, Repr

/-- Embeds web_ui/api/generate.py, `handler.do_POST`.  `origCwd` is the working
directory on entry (`os.getcwd()`), `tempDir` the directory `tempfile.mkdtemp`
returns; the project directory is `tempDir/taskId`.  The handler chdirs into
the project directory before `generate_project` and restores `origCwd` in a
`finally` block; the outer `except` answers 400, the inner one 500. -/
def do_POST (parsed : Except String ChoiceSet) (taskId : String)
    (render : ChoiceSet → Except String Unit)
    (origCwd tempDir : String) : PostRun :=
  match parsed with
  | .error e =>
    { events := [],
      response := { status := 400, body := [("error", "Invalid request: " ++ e)] } }
  | .ok data =>
    match validate_choices data with
    | .error e =>
      { events := [.validate],
        response := { status := 400, body := [("error", "Invalid request: " ++ e)] } }
    | .ok _ =>
      let projectDir := tempDir ++ "/" ++ taskId
      match render data with
      | .error e =>
        { events := [.validate, .mkTempDir, .mkProjectDir, .chdir projectDir,
                     .renderProject, .chdir origCwd],
          response := { status := 500,
                        body := [("error", "Generation failed: " ++ e)] } }
      | .ok _ =>
        { events := [.validate, .mkTempDir, .mkProjectDir, .chdir projectDir,
                     .renderProject, .chdir origCwd, .writeZip],
          response := { status := 200, body := successBody taskId } }

/-- The working directory after replaying a trace of events from `start`:
only `chdir` events change it. -/
def finalCwd (start : String) (events : List Event) : String :=
  events.foldl (fun cwd e => match e with | .chdir d => d | _ => cwd) start

/-- The working directory in effect when the first occurrence of `target` in
the trace executes (`none` when `target` never occurs). -/
def cwdBeforeFirst (start : String) : List Event → Event → Option String
  | [], _ => none
  | e :: rest, target =>
    if e = target then some start
    else cwdBeforeFirst (match e with | .chdir d => d | _ => start) rest target

/-!  ## The interactive CLI flow (generator/cli.py, `init`)

Embedded as a pure function of the abstracted outcomes of its effectful
sub-steps: `choices` stands for `get_user_choices()` (which may raise), and
`render` for `ProjectRenderer(choices).generate_project()`.  The result is the
event trace in program order together with the process exit code: the single
`except Exception` block prints the error and raises `typer.Exit(1)`; a normal
return exits 0. -/

def initRun (choices : Except String ChoiceSet)
    (render : ChoiceSet → Except String Unit) : List Event × Nat :=
  match choices with
  | .error _ => ([.printBanner, .promptUser, .printError], 1)
  | .ok c =>
    match validate_choices c with
    | .error _ => ([.printBanner, .promptUser, .validate, .printError], 1)
    | .ok _ =>
      match render c with
      | .error _ =>
        ([.printBanner, .promptUser, .validate, .renderProject, .printError], 1)
      | .ok _ =>
        ([.printBanner, .promptUser, .validate, .renderProject, .printSuccess], 0)

/-!  ## The project renderer

generator/renderer.py is not among the available source files; only its two
call sites are.  Both call sites construct `ProjectRenderer(choices)` and then
invoke `generate_project()` with no arguments, and the HTTP handler changes
the working directory to the per-request project directory before the call
("Change to project directory and generate") and restores it afterwards.  The
renderer is therefore modelled as a deterministic function from the validated
ChoiceSet to the list of (relative path, file contents) pairs it writes, with
the ambient working directory as the base the relative paths resolve
against. -/

/-- From the call sites in src (generator/cli.py lines 73-74, and
web_ui/api/generate.py lines 42-43): the renderer invocation carries the
choices and nothing else — in particular no target-directory argument. -/
structure RenderInvocation where
  choices : ChoiceSet
deriving DecidableEq, Repr

/-- The base directory a renderer invocation writes into.  Modelled from the
call sites: `generate_project()` takes no path, so the write target is the
ambient current working directory at call time (which is why
web_ui/api/generate.py wraps the call in `os.chdir(project_dir)` /
`os.chdir(original_cwd)`). -/
def writeTargetDir (cwd : String) (_inv : RenderInvocation) : String := cwd

/-- Write target under the spec's words (section 4.2): the contract is
`generate(choices, target_dir)`, so the target directory is the explicit
`target_dir` parameter, independent of the ambient working directory.  Kept
for comparison with `writeTargetDir`. -/
def specWriteTargetDir (_cwd : String) (_inv : RenderInvocation)
    (target_dir : String) : String := target_dir

def dockerfileStub : String :=
  "FROM python:3.10-slim\nWORKDIR /app\nCOPY . /app\n"

def frameworkFiles : String → List (String × String)
  | "sklearn" =>
    [("src/models/train.py", "import sklearn\n"),
     ("requirements.txt", "scikit-learn\npandas\nnumpy\n")]
  | "pytorch" =>
    [("src/models/train.py", "import torch\n"),
     ("requirements.txt", "torch\npandas\nnumpy\n")]
  | "tensorflow" =>
    [("src/models/train.py", "import tensorflow as tf\n"),
     ("requirements.txt", "tensorflow\npandas\nnumpy\n")]
  | _ => []

def taskFiles : String → List (String × String)
  | "classification" =>
    [("src/data/load_data.py", "# load labelled classification data\n"),
     ("src/evaluation/metrics.py", "# accuracy, f1\n")]
  | "regression" =>
    [("src/data/load_data.py", "# load regression data\n"),
     ("src/evaluation/metrics.py", "# rmse, mae\n")]
  | "timeseries" =>
    [("src/data/load_data.py", "# load time-indexed data\n"),
     ("src/evaluation/metrics.py", "# mape, forecast error\n")]
  | _ => []

def trackingFiles : String → List (String × String)
  | "mlflow" => [("src/tracking/mlflow_setup.py", "import mlflow\n")]
  | "wandb" => [("src/tracking/wandb_setup.py", "import wandb\n")]
  | _ => []

def orchestrationFiles : String → List (String × String)
  | "airflow" => [("pipelines/airflow_dag.py", "from airflow import DAG\n")]
  | "kubeflow" => [("pipelines/kubeflow_pipeline.py", "import kfp\n")]
  | _ => []

def deploymentFiles : String → List (String × String)
  | "fastapi" => [("app/main.py", "from fastapi import FastAPI\n")]
  | "docker" => [("Dockerfile", dockerfileStub)]
  | "kubernetes" =>
    [("Dockerfile", dockerfileStub),
     ("k8s/deployment.yaml", "kind: Deployment\n"),
     ("k8s/service.yaml", "kind: Service\n")]
  | _ => []

def monitoringFiles : String → List (String × String)
  | "evidently" => [("src/monitoring/evidently_report.py", "import evidently\n")]
  | "custom" => [("src/monitoring/monitor.py", "# custom monitoring\n")]
  | _ => []

/-- Modelled from the spec: `ProjectRenderer.generate_project` lives in
generator/renderer.py, which is not among the available source files.  Spec
section 4.2: an unconditional skeleton, then framework-, task-, tracking-,
orchestration-, deployment- and monitoring-specific file groups, each an
independent function of one field; tracking, orchestration and monitoring
contribute nothing on the value "none", absent optional fields default to
"none" (section 3), and `kubernetes` deployment implies the Dockerfile too.
The result is the list of (relative path, contents) pairs written, in write
order. -/
def generatedFiles (c : ChoiceSet) : List (String × String) :=
  let name := c.project_name.getD ""
  let fw := c.framework.getD "none"
  let task := c.task_type.getD "none"
  let tracking := c.experiment_tracking.getD "none"
  let orch := c.orchestration.getD "none"
  let deploy := c.deployment.getD "none"
  let monit := c.monitoring.getD "none"
  [("README.md", "# " ++ name ++ "\n"),
   (".gitignore", "__pycache__/\n.env\n"),
   ("config.yaml", "framework: " ++ fw ++ "\ntask_type: " ++ task ++ "\n")] ++
  frameworkFiles fw ++
  taskFiles task ++
  (if tracking = "none" then [] else trackingFiles tracking) ++
  (if orch = "none" then [] else orchestrationFiles orch) ++
  deploymentFiles deploy ++
  (if monit = "none" then [] else monitoringFiles monit)

/-!  Directory state for the idempotence property: a directory is a partial
map from relative path to file contents; writing a file overwrites any
previous contents at that path. -/

def DirState : Type := String → Option String

def emptyDir : DirState := fun _ => none

def writeFile (d : DirState) (p : String × String) : DirState :=
  fun q => if q = p.1 then some p.2 else d q

/-- Running `generate_project` against a directory state: every file of
`generatedFiles c` is written in order, overwriting. -/
def runGenerate (c : ChoiceSet) (d : DirState) : DirState :=
  (generatedFiles c).foldl writeFile d

/-- The last content written to path `q` by a write list, if any. -/
def lastWrite (q : String) : List (String × String) → Option String
  | [] => none
  | p :: rest =>
    match lastWrite q rest with
    | some v => some v
    | none => if q = p.1 then some p.2 else none

/-!  ## Filesystem trees and the ZIP archive (web_ui/api/generate.py, 48-53)

The generated project directory is modelled as a tree of entries; `rglobList`
is `project_dir.rglob('*')`, listing every descendant with its path relative
to the project directory (the source computes absolute paths and strips the
prefix with `relative_to(project_dir)`; the relative paths are tracked
directly).  The ZIP loop keeps entries for which `is_file()` holds and stores
each under its relative path. -/

inductive FsEntry where
  | file (name : String) (content : String)
  | dir (name : String) (children : List FsEntry)
  | other (name : String)
deriving Repr

mutual

def rglobEntry : FsEntry → List (List String × FsEntry)
  | .file n c => [([n], .file n c)]
  | .other n => [([n], .other n)]
  | .dir n ch =>
    ([n], .dir n ch) :: (rglobList ch).map (fun p => (n :: p.1, p.2))

def rglobList : List FsEntry → List (List String × FsEntry)
  | [] => []
  | e :: es => rglobEntry e ++ rglobList es

end

/-- The body of the ZIP loop: `if file_path.is_file()` keeps regular files
only, paired with their relative path and contents. -/
def zipSelect (p : List String × FsEntry) : Option (List String × String) :=
  match p.2 with
  | .file _ c => some (p.1, c)
  | _ => none

/-- The ZIP construction of web_ui/api/generate.py: iterate `rglob('*')`,
keep regular files, store each under its path relative to the project
directory, paired with its bytes. -/
def zipEntries (projectChildren : List FsEntry) : List (List String × String) :=
  (rglobList projectChildren).filterMap zipSelect

mutual

/-- Specification-side description: the regular files under a tree, each with
its relative path and contents, directories and non-file entries excluded. -/
def regularFilesEntry : FsEntry → List (List String × String)
  | .file n c => [([n], c)]
  | .other _ => []
  | .dir n ch => (regularFilesList ch).map (fun p => (n :: p.1, p.2))

def regularFilesList : List FsEntry → List (List String × String)
  | [] => []
  | e :: es => regularFilesEntry e ++ regularFilesList es

end

/-!  ## Concrete ChoiceSets used as witnesses -/

/-- The spec section 8 example scenario. -/
def demoChoices : ChoiceSet :=
  { project_name := some "demo"
    framework := some "sklearn"
    task_type := some "classification"
    experiment_tracking := some "none"
    orchestration := none
    deployment := some "fastapi"
    monitoring := none }

/-- The spec section 8 invalid scenario: `framework = "bogus"`. -/
def bogusChoices : ChoiceSet :=
  { project_name := some "x"
    framework := some "bogus"
    task_type := some "classification"
    experiment_tracking := some "none"
    orchestration := none
    deployment := some "fastapi"
    monitoring := none }

/-!  ## Theorems -/

/-- C4: for every GET request, the options handler responds 200 with a JSON
object whose keys are exactly framework, task_type, experiment_tracking,
orchestration, deployment, monitoring, whose value strings per key are
exactly the domain-table values, and the response is identical for every
request. -/
theorem options_do_GET_spec :
    (∀ req : String,
      (options_do_GET req).status = 200 ∧
      (options_do_GET req).body.map Prod.fst =
        ["framework", "task_type", "experiment_tracking", "orchestration",
         "deployment", "monitoring"] ∧
      ((options_do_GET req).body.lookup "framework").map
          (fun l => l.map OptionEntry.value) = some frameworkDomain ∧
      ((options_do_GET req).body.lookup "task_type").map
          (fun l => l.map OptionEntry.value) = some taskTypeDomain ∧
      ((options_do_GET req).body.lookup "experiment_tracking").map
          (fun l => l.map OptionEntry.value) = some trackingDomain ∧
      ((options_do_GET req).body.lookup "orchestration").map
          (fun l => l.map OptionEntry.value) = some orchestrationDomain ∧
      ((options_do_GET req).body.lookup "deployment").map
          (fun l => l.map OptionEntry.value) = some deploymentDomain ∧
      ((options_do_GET req).body.lookup "monitoring").map
          (fun l => l.map OptionEntry.value) = some monitoringDomain) ∧
    (∀ r₁ r₂ : String, options_do_GET r₁ = options_do_GET r₂) := by
  refine ⟨fun req => ?_, fun r₁ r₂ => rfl⟩
  exact ⟨rfl, rfl, rfl, rfl, rfl, rfl, rfl, rfl⟩

/-- C9: the POST generate handler leaves the working directory unchanged —
replaying the chdir events of any run of `do_POST` from the entry working
directory ends back at that directory, in every branch, including the one
where rendering fails. -/
theorem do_POST_preserves_cwd (parsed : Except String ChoiceSet) (taskId : String)
    (render : ChoiceSet → Except String Unit) (origCwd tempDir : String) :
    finalCwd origCwd (do_POST parsed taskId render origCwd tempDir).events = origCwd := by
  cases parsed with
  | error e => rfl
  | ok data =>
    cases hv : validate_choices data with
    | error e => simp [do_POST, hv, finalCwd]
    | ok u =>
      cases hr : render data with
      | error e => simp [do_POST, hv, hr, finalCwd]
      | ok v => simp [do_POST, hv, hr, finalCwd]

/-- C1: on a POST request, if parsing, validation and the render/archive block
all succeed, the handler answers 200 with a body holding exactly the keys
task_id, status (value "completed"), message, download_url; if parsing or
validation fails it answers 400 with body key error only; if the
render/archive block fails after validation succeeded it answers 500 with
body key error only. -/
theorem do_POST_response_spec (parsed : Except String ChoiceSet) (taskId : String)
    (render : ChoiceSet → Except String Unit) (origCwd tempDir : String) :
    ((∃ data, parsed = Except.ok data ∧ (validate_choices data).isOk = true ∧
        (render data).isOk = true) →
      (do_POST parsed taskId render origCwd tempDir).response.status = 200 ∧
      (do_POST parsed taskId render origCwd tempDir).response.body.map Prod.fst =
        ["task_id", "status", "message", "download_url"] ∧
      (do_POST parsed taskId render origCwd tempDir).response.body.lookup "status" =
        some "completed") ∧
    ((∀ data, parsed = Except.ok data → (validate_choices data).isOk = false) →
      (do_POST parsed taskId render origCwd tempDir).response.status = 400 ∧
      (do_POST parsed taskId render origCwd tempDir).response.body.map Prod.fst =
        ["error"]) ∧
    ((∃ data, parsed = Except.ok data ∧ (validate_choices data).isOk = true ∧
        (render data).isOk = false) →
      (do_POST parsed taskId render origCwd tempDir).response.status = 500 ∧
      (do_POST parsed taskId render origCwd tempDir).response.body.map Prod.fst =
        ["error"]) := by
  refine ⟨?_, ?_, ?_⟩
  · rintro ⟨data, rfl, hok, hrok⟩
    cases hv : validate_choices data with
    | error e =>
      rw [hv] at hok
      simp [Except.isOk, Except.toBool] at hok
    | ok u =>
      cases hr : render data with
      | error e =>
        rw [hr] at hrok
        simp [Except.isOk, Except.toBool] at hrok
      | ok v =>
        simp [do_POST, hv, hr, successBody, List.lookup]
  · intro hall
    cases parsed with
    | error e => exact ⟨rfl, rfl⟩
    | ok data =>
      cases hv : validate_choices data with
      | error e =>
        simp [do_POST, hv]
      | ok u =>
        have h := hall data rfl
        rw [hv] at h
        simp [Except.isOk, Except.toBool] at h
  · rintro ⟨data, rfl, hok, hrok⟩
    cases hv : validate_choices data with
    | error e =>
      rw [hv] at hok
      simp [Except.isOk, Except.toBool] at hok
    | ok u =>
      cases hr : render data with
      | error e =>
        simp [do_POST, hv, hr]
      | ok v =>
        rw [hr] at hrok
        simp [Except.isOk, Except.toBool] at hrok

/-- C1 witness: the successful branch evaluated at the section 8 demo
ChoiceSet. -/
theorem do_POST_response_spec_witness :
    (do_POST (Except.ok demoChoices) "t0" (fun _ => Except.ok ()) "/w" "/tmp1").response.status = 200 ∧
    (do_POST (Except.ok demoChoices) "t0" (fun _ => Except.ok ()) "/w" "/tmp1").response.body.map Prod.fst =
      ["task_id", "status", "message", "download_url"] ∧
    (do_POST (Except.ok demoChoices) "t0" (fun _ => Except.ok ()) "/w" "/tmp1").response.body.lookup "status" =
      some "completed" :=
  (do_POST_response_spec (Except.ok demoChoices) "t0" (fun _ => Except.ok ())
      "/w" "/tmp1").1 ⟨demoChoices, rfl, by decide, rfl⟩

/-- C2: in both the interactive flow and the HTTP flow, validation runs
before any render — in every trace, the validate event occurs strictly before
the first renderProject event — and when validation fails, no filesystem
write for the project has occurred in either flow. -/
theorem validate_precedes_render (choices : Except String ChoiceSet)
    (render : ChoiceSet → Except String Unit) (taskId origCwd tempDir : String) :
    (∀ c, choices = Except.ok c → (validate_choices c).isOk = false →
      (initRun choices render).1.filter isFsWrite = [] ∧
      (do_POST choices taskId render origCwd tempDir).events.filter isFsWrite = []) ∧
    (Event.renderProject ∈ (initRun choices render).1 →
      Event.validate ∈
        (initRun choices render).1.takeWhile (fun e => e ≠ Event.renderProject)) ∧
    (Event.renderProject ∈ (do_POST choices taskId render origCwd tempDir).events →
      Event.validate ∈
        (do_POST choices taskId render origCwd tempDir).events.takeWhile
          (fun e => e ≠ Event.renderProject)) := by
  cases choices with
  | error e =>
    refine ⟨fun c hc => by simp at hc, ?_, ?_⟩
    · intro h
      simp [initRun] at h
    · intro h
      simp [do_POST] at h
  | ok c =>
    cases hv : validate_choices c with
    | error e =>
      refine ⟨fun d hd _ => ?_, ?_, ?_⟩
      · obtain rfl : c = d := by injection hd
        exact ⟨by simp [initRun, hv, isFsWrite], by simp [do_POST, hv, isFsWrite]⟩
      · intro h
        simp [initRun, hv] at h
      · intro h
        simp [do_POST, hv] at h
    | ok u =>
      refine ⟨fun d hd hbad => ?_, ?_, ?_⟩
      · obtain rfl : c = d := by injection hd
        rw [hv] at hbad
        simp [Except.isOk, Except.toBool] at hbad
      · intro _
        cases hr : render c with
        | error e => simp [initRun, hv, hr]
        | ok v => simp [initRun, hv, hr]
      · intro _
        cases hr : render c with
        | error e => simp [do_POST, hv, hr]
        | ok v => simp [do_POST, hv, hr]

/-- C2 witness: with the invalid section 8 scenario (framework "bogus"),
neither flow performs any project filesystem write. -/
theorem validate_precedes_render_witness :
    (initRun (Except.ok bogusChoices) (fun _ => Except.ok ())).1.filter isFsWrite = [] ∧
    (do_POST (Except.ok bogusChoices) "t1" (fun _ => Except.ok ()) "/w" "/tmp2").events.filter
      isFsWrite = [] :=
  (validate_precedes_render (Except.ok bogusChoices) (fun _ => Except.ok ())
      "t1" "/w" "/tmp2").1 bogusChoices rfl (by decide)

/-- C8: in the interactive flow, an error during choice collection,
validation, or rendering makes `init` exit with code 1 after printing the
error, with no retry (each stage is attempted at most once). -/
theorem init_error_exits_one (choices : Except String ChoiceSet)
    (render : ChoiceSet → Except String Unit)
    (h : choices.isOk = false ∨
      ∃ c, choices = Except.ok c ∧
        ((validate_choices c).isOk = false ∨ (render c).isOk = false)) :
    (initRun choices render).2 = 1 ∧
    Event.printError ∈ (initRun choices render).1 ∧
    (initRun choices render).1.count Event.promptUser ≤ 1 ∧
    (initRun choices render).1.count Event.validate ≤ 1 ∧
    (initRun choices render).1.count Event.renderProject ≤ 1 := by
  cases choices with
  | error e => refine ⟨rfl, ?_, ?_, ?_, ?_⟩ <;> simp [initRun, List.count_cons]
  | ok c =>
    cases hv : validate_choices c with
    | error e =>
      refine ⟨by simp [initRun, hv], by simp [initRun, hv], ?_, ?_, ?_⟩ <;>
        simp [initRun, hv, List.count_cons]
    | ok u =>
      cases hr : render c with
      | error e =>
        refine ⟨by simp [initRun, hv, hr], by simp [initRun, hv, hr], ?_, ?_, ?_⟩ <;>
          simp [initRun, hv, hr, List.count_cons]
      | ok v =>
        rcases h with h | ⟨d, hd, hbad⟩
        · simp [Except.isOk, Except.toBool] at h
        · obtain rfl : c = d := by injection hd
          rw [hv, hr] at hbad
          simp [Except.isOk, Except.toBool] at hbad

/-- C8 witness: the invalid section 8 scenario exits with code 1 after
printing the error, each stage attempted at most once. -/
theorem init_error_exits_one_witness :
    (initRun (Except.ok bogusChoices) (fun _ => Except.ok ())).2 = 1 ∧
    Event.printError ∈ (initRun (Except.ok bogusChoices) (fun _ => Except.ok ())).1 ∧
    (initRun (Except.ok bogusChoices) (fun _ => Except.ok ())).1.count Event.promptUser ≤ 1 ∧
    (initRun (Except.ok bogusChoices) (fun _ => Except.ok ())).1.count Event.validate ≤ 1 ∧
    (initRun (Except.ok bogusChoices) (fun _ => Except.ok ())).1.count Event.renderProject ≤ 1 :=
  init_error_exits_one (Except.ok bogusChoices) (fun _ => Except.ok ())
    (Or.inr ⟨bogusChoices, rfl, Or.inl (by decide)⟩)

/-- C5 counterexample: the claim says the target directory is an explicit
parameter of the rendering operation rather than ambient state; but the
renderer invocation in the source carries only the choices, and the directory
it writes into is the ambient working directory, so two different ambient
working directories give two different write targets for the very same
invocation. -/
theorem render_target_not_explicit :
    writeTargetDir "/a" ⟨demoChoices⟩ ≠ writeTargetDir "/b" ⟨demoChoices⟩ := by
  decide

/-- C5 amended: the rendering operation is invoked as
`ProjectRenderer(choices).generate_project()` with no target-directory
argument; it writes into the ambient current working directory, and the HTTP
handler supplies the target by chdir-ing to the per-request project directory
`tempDir/taskId` before the render step — the working directory in effect at
the render step is exactly that project directory. -/
theorem render_target_is_ambient_cwd (parsed : Except String ChoiceSet)
    (taskId : String) (render : ChoiceSet → Except String Unit)
    (origCwd tempDir : String) (c : ChoiceSet)
    (hp : parsed = Except.ok c) (hv : (validate_choices c).isOk = true) :
    cwdBeforeFirst origCwd (do_POST parsed taskId render origCwd tempDir).events
        Event.renderProject = some (tempDir ++ "/" ++ taskId) ∧
    writeTargetDir (tempDir ++ "/" ++ taskId) ⟨c⟩ = tempDir ++ "/" ++ taskId := by
  subst hp
  cases hval : validate_choices c with
  | error e =>
    rw [hval] at hv
    simp [Except.isOk, Except.toBool] at hv
  | ok u =>
    cases hr : render c with
    | error e =>
      exact ⟨by simp [do_POST, hval, hr, cwdBeforeFirst], rfl⟩
    | ok v =>
      exact ⟨by simp [do_POST, hval, hr, cwdBeforeFirst], rfl⟩

/-- C5 amended witness: concrete run with the demo ChoiceSet. -/
theorem render_target_is_ambient_cwd_witness :
    cwdBeforeFirst "/w"
      (do_POST (Except.ok demoChoices) "t2" (fun _ => Except.ok ()) "/w" "/tmp3").events
      Event.renderProject = some ("/tmp3" ++ "/" ++ "t2") :=
  (render_target_is_ambient_cwd (Except.ok demoChoices) "t2" (fun _ => Except.ok ())
      "/w" "/tmp3" demoChoices rfl (by decide)).1

theorem checkEnum_isOk (f : String) (v : Option String) (dom : List String)
    (req : Bool) :
    (checkEnum f v dom req).isOk =
      (match v with | none => !req | some x => dom.contains x) := by
  cases v with
  | none => cases req <;> rfl
  | some x =>
    simp only [checkEnum]
    cases h : dom.contains x <;> rfl

theorem checkProjectName_isOk (v : Option String) :
    (checkProjectName v).isOk =
      (match v with | none => false | some x => !x.isEmpty && fsSafe x) := by
  cases v with
  | none => rfl
  | some x =>
    simp only [checkProjectName]
    cases he : x.isEmpty with
    | true => rfl
    | false => cases hs : fsSafe x <;> rfl

theorem validate_choices_isOk (c : ChoiceSet) :
    (validate_choices c).isOk = validSpec c := by
  have e0 := checkProjectName_isOk c.project_name
  have e1 := checkEnum_isOk "framework" c.framework frameworkDomain true
  have e2 := checkEnum_isOk "task_type" c.task_type taskTypeDomain true
  have e3 := checkEnum_isOk "experiment_tracking" c.experiment_tracking trackingDomain true
  have e4 := checkEnum_isOk "orchestration" c.orchestration orchestrationDomain false
  have e5 := checkEnum_isOk "deployment" c.deployment deploymentDomain true
  have e6 := checkEnum_isOk "monitoring" c.monitoring monitoringDomain false
  have hchain :
      (validate_choices c).isOk =
        ((checkProjectName c.project_name).isOk &&
         ((checkEnum "framework" c.framework frameworkDomain true).isOk &&
          ((checkEnum "task_type" c.task_type taskTypeDomain true).isOk &&
           ((checkEnum "experiment_tracking" c.experiment_tracking trackingDomain true).isOk &&
            ((checkEnum "orchestration" c.orchestration orchestrationDomain false).isOk &&
             ((checkEnum "deployment" c.deployment deploymentDomain true).isOk &&
              (checkEnum "monitoring" c.monitoring monitoringDomain false).isOk)))))) := by
    unfold validate_choices
    cases checkProjectName c.project_name with
    | error m => rfl
    | ok u =>
      cases checkEnum "framework" c.framework frameworkDomain true with
      | error m => rfl
      | ok u =>
        cases checkEnum "task_type" c.task_type taskTypeDomain true with
        | error m => rfl
        | ok u =>
          cases checkEnum "experiment_tracking" c.experiment_tracking trackingDomain true with
          | error m => rfl
          | ok u =>
            cases checkEnum "orchestration" c.orchestration orchestrationDomain false with
            | error m => rfl
            | ok u =>
              cases checkEnum "deployment" c.deployment deploymentDomain true with
              | error m => rfl
              | ok u => rfl
  rw [hchain, e0, e1, e2, e3, e4, e5, e6]
  unfold validSpec
  cases c.project_name <;> cases c.framework <;> cases c.task_type <;>
    cases c.experiment_tracking <;> cases c.orchestration <;> cases c.deployment <;>
    cases c.monitoring <;> simp [Bool.and_assoc]

theorem checkEnum_error (f : String) (v : Option String) (dom : List String)
    (req : Bool) (m : String) (h : checkEnum f v dom req = Except.error m) :
    (v = none ∧ req = true ∧ m = missingMsg f) ∨
    (∃ x, v = some x ∧ x ∉ dom ∧ m = invalidMsg f) := by
  cases v with
  | none =>
    left
    cases req with
    | false => simp [checkEnum] at h
    | true =>
      injection h with h
      exact ⟨rfl, rfl, h.symm⟩
  | some x =>
    right
    simp only [checkEnum] at h
    cases hx : dom.contains x with
    | true => rw [hx] at h; simp at h
    | false =>
      rw [hx] at h
      injection h with h
      exact ⟨x, rfl, by simpa using hx, h.symm⟩

theorem checkProjectName_error (v : Option String) (m : String)
    (h : checkProjectName v = Except.error m) :
    (v = none ∧ m = missingMsg "project_name") ∨
    (∃ x, v = some x ∧ (x.isEmpty = true ∨ fsSafe x = false) ∧
      m = invalidMsg "project_name") := by
  cases v with
  | none =>
    left
    injection h with h
    exact ⟨rfl, h.symm⟩
  | some x =>
    right
    simp only [checkProjectName] at h
    cases he : x.isEmpty with
    | true =>
      rw [he] at h
      injection h with h
      exact ⟨x, rfl, Or.inl he, h.symm⟩
    | false =>
      rw [he] at h
      cases hs : fsSafe x with
      | true => rw [hs] at h; simp at h
      | false =>
        rw [hs] at h
        injection h with h
        exact ⟨x, rfl, Or.inr hs, h.symm⟩

theorem validate_error_identifies (c : ChoiceSet) (m : String)
    (h : validate_choices c = Except.error m) :
    errorIdentifiesOffender c m = true := by
  unfold validate_choices at h
  unfold errorIdentifiesOffender
  cases h0 : checkProjectName c.project_name with
  | error m0 =>
    simp only [h0, Except.error.injEq] at h
    subst h
    rcases checkProjectName_error _ _ h0 with ⟨hn, rfl⟩ | ⟨x, hx, hbad, rfl⟩
    · exact List.any_eq_true.mpr ⟨"project_name", by simp [offenders, hn], by simp⟩
    · exact List.any_eq_true.mpr ⟨"project_name", by simp [offenders, hx, hbad], by simp⟩
  | ok u0 =>
  simp only [h0] at h
  cases h1 : checkEnum "framework" c.framework frameworkDomain true with
  | error m1 =>
    simp only [h1, Except.error.injEq] at h
    subst h
    rcases checkEnum_error _ _ _ _ _ h1 with ⟨hn, -, rfl⟩ | ⟨x, hx, hdom, rfl⟩
    · exact List.any_eq_true.mpr ⟨"framework", by simp [offenders, hn], by simp⟩
    · exact List.any_eq_true.mpr ⟨"framework", by simp [offenders, hx, hdom], by simp⟩
  | ok u1 =>
  simp only [h1] at h
  cases h2 : checkEnum "task_type" c.task_type taskTypeDomain true with
  | error m2 =>
    simp only [h2, Except.error.injEq] at h
    subst h
    rcases checkEnum_error _ _ _ _ _ h2 with ⟨hn, -, rfl⟩ | ⟨x, hx, hdom, rfl⟩
    · exact List.any_eq_true.mpr ⟨"task_type", by simp [offenders, hn], by simp⟩
    · exact List.any_eq_true.mpr ⟨"task_type", by simp [offenders, hx, hdom], by simp⟩
  | ok u2 =>
  simp only [h2] at h
  cases h3 : checkEnum "experiment_tracking" c.experiment_tracking trackingDomain true with
  | error m3 =>
    simp only [h3, Except.error.injEq] at h
    subst h
    rcases checkEnum_error _ _ _ _ _ h3 with ⟨hn, -, rfl⟩ | ⟨x, hx, hdom, rfl⟩
    · exact List.any_eq_true.mpr ⟨"experiment_tracking", by simp [offenders, hn], by simp⟩
    · exact List.any_eq_true.mpr ⟨"experiment_tracking", by simp [offenders, hx, hdom], by simp⟩
  | ok u3 =>
  simp only [h3] at h
  cases h4 : checkEnum "orchestration" c.orchestration orchestrationDomain false with
  | error m4 =>
    simp only [h4, Except.error.injEq] at h
    subst h
    rcases checkEnum_error _ _ _ _ _ h4 with ⟨-, hreq, -⟩ | ⟨x, hx, hdom, rfl⟩
    · simp at hreq
    · exact List.any_eq_true.mpr ⟨"orchestration", by simp [offenders, hx, hdom], by simp⟩
  | ok u4 =>
  simp only [h4] at h
  cases h5 : checkEnum "deployment" c.deployment deploymentDomain true with
  | error m5 =>
    simp only [h5, Except.error.injEq] at h
    subst h
    rcases checkEnum_error _ _ _ _ _ h5 with ⟨hn, -, rfl⟩ | ⟨x, hx, hdom, rfl⟩
    · exact List.any_eq_true.mpr ⟨"deployment", by simp [offenders, hn], by simp⟩
    · exact List.any_eq_true.mpr ⟨"deployment", by simp [offenders, hx, hdom], by simp⟩
  | ok u5 =>
  simp only [h5] at h
  rcases checkEnum_error _ _ _ _ _ h with ⟨-, hreq, -⟩ | ⟨x, hx, hdom, rfl⟩
  · simp at hreq
  · exact List.any_eq_true.mpr ⟨"monitoring", by simp [offenders, hx, hdom], by simp⟩

/-- C3: validation succeeds exactly when every required key is present, every
enum value lies in its domain, and project_name is non-empty and
filesystem-safe; and every validation error message names (as a
missing-field or invalid-value message) a field that actually offends. -/
theorem validate_choices_spec (c : ChoiceSet) :
    ((validate_choices c).isOk = true ↔ validSpec c = true) ∧
    ∀ m, validate_choices c = Except.error m →
      errorIdentifiesOffender c m = true :=
  ⟨by rw [validate_choices_isOk], fun m hm => validate_error_identifies c m hm⟩

/-- C3 witness: the section 8 invalid scenario fails naming framework. -/
theorem validate_choices_spec_witness :
    errorIdentifiesOffender bogusChoices (invalidMsg "framework") = true :=
  (validate_choices_spec bogusChoices).2 (invalidMsg "framework") rfl

theorem foldl_writeFile_eq (L : List (String × String)) (d : DirState) (q : String) :
    (L.foldl writeFile d) q =
      (match lastWrite q L with
       | some v => some v
       | none => d q) := by
  induction L generalizing d with
  | nil => rfl
  | cons p rest ih =>
    simp only [List.foldl_cons, lastWrite, ih]
    cases lastWrite q rest with
    | some v => rfl
    | none =>
      by_cases hq : q = p.1
      · simp [writeFile, hq]
      · simp [writeFile, hq]

/-- C6: rendering is idempotent — for a validated ChoiceSet, generating into
an initially empty directory and then generating again with the same
ChoiceSet leaves the directory byte-identical to the first generation. -/
theorem runGenerate_idempotent (c : ChoiceSet) (h : validSpec c = true) :
    runGenerate c (runGenerate c emptyDir) = runGenerate c emptyDir := by
  funext q
  unfold runGenerate
  simp only [foldl_writeFile_eq]
  cases lastWrite q (generatedFiles c) with
  | some v => rfl
  | none => rfl

/-- C6 witness: concrete idempotent run on the demo ChoiceSet. -/
theorem runGenerate_idempotent_witness :
    runGenerate demoChoices (runGenerate demoChoices emptyDir) =
      runGenerate demoChoices emptyDir :=
  runGenerate_idempotent demoChoices (by decide)

theorem deploymentFiles_docker :
    deploymentFiles "docker" = [("Dockerfile", dockerfileStub)] := rfl

theorem deploymentFiles_kubernetes :
    deploymentFiles "kubernetes" =
      [("Dockerfile", dockerfileStub),
       ("k8s/deployment.yaml", "kind: Deployment\n"),
       ("k8s/service.yaml", "kind: Service\n")] := rfl

/-- C7: with all other fields equal, the files generated under
deployment = kubernetes are a superset of those generated under
deployment = docker — the kubernetes manifests are additive over the same
Dockerfile stub. -/
theorem kubernetes_superset_docker (c : ChoiceSet) (h : validSpec c = true) :
    ∀ p, p ∈ generatedFiles { c with deployment := some "docker" } →
      p ∈ generatedFiles { c with deployment := some "kubernetes" } := by
  obtain ⟨pn, fw, tt, et, orc, dep, mo⟩ := c
  intro p hp
  simp only [generatedFiles, Option.getD_some, deploymentFiles_docker,
    deploymentFiles_kubernetes, List.mem_append, List.mem_cons,
    List.mem_singleton, List.not_mem_nil] at hp ⊢
  tauto

/-- C7 witness: the Dockerfile stub generated for docker deployment is among
the kubernetes-deployment files of the demo ChoiceSet. -/
theorem kubernetes_superset_docker_witness :
    ("Dockerfile", dockerfileStub) ∈
      generatedFiles { demoChoices with deployment := some "kubernetes" } :=
  kubernetes_superset_docker demoChoices (by decide) ("Dockerfile", dockerfileStub)
    (by decide)

mutual

theorem zipSelect_rglobEntry (e : FsEntry) :
    (rglobEntry e).filterMap zipSelect = regularFilesEntry e := by
  cases e with
  | file n c => rfl
  | other n => rfl
  | dir n ch =>
    have hmap : ∀ l : List (List String × FsEntry),
        (l.map (fun p => (n :: p.1, p.2))).filterMap zipSelect =
          (l.filterMap zipSelect).map (fun q => (n :: q.1, q.2)) := by
      intro l
      induction l with
      | nil => rfl
      | cons p rest ih =>
        obtain ⟨pa, pe⟩ := p
        cases pe <;> simp [zipSelect, ih]
    have hrec := zipSelect_rglobList ch
    simp [rglobEntry, regularFilesEntry, zipSelect, hmap, hrec]

theorem zipSelect_rglobList (ch : List FsEntry) :
    (rglobList ch).filterMap zipSelect = regularFilesList ch := by
  cases ch with
  | nil => rfl
  | cons e es =>
    have h1 := zipSelect_rglobEntry e
    have h2 := zipSelect_rglobList es
    simp [rglobList, regularFilesList, List.filterMap_append, h1, h2]

end

/-- C10: the ZIP archive produced by the POST generate handler contains
exactly the regular files found under the generated project directory —
directories and non-file entries excluded — each stored under its path
relative to that project directory. -/
theorem zip_contains_exactly_regular_files (projectChildren : List FsEntry) :
    zipEntries projectChildren = regularFilesList projectChildren := by
  unfold zipEntries
  exact zipSelect_rglobList projectChildren

end MLOpsGen
